import Mathlib

/-!
A shallow embedding of `src/BlackBone/Process/Process.cpp` (namespace
`blackbone`, class `Process`): the process snapshot enumerator
(`EnumByNameOrPID`), the lifecycle orchestrator (`Attach`,
`CreateAndAttach`, `Detach`) and `Terminate`.  Machine integers are
modelled as `Int`/`Nat` with explicit two's-complement reinterpretation
where the source relies on it; OS-call outcomes are inputs of the
embedded functions; side effects (allocations, frees, subsystem resets,
handle operations) are recorded as explicit event traces.
-/

namespace Blackbone

/-- Reinterpret a natural number as a signed 32-bit integer
(two's complement), as the C++ compiler does when an unsigned literal is
stored in a 32-bit signed `NTSTATUS`. -/
def toInt32 (n : Nat) : Int :=
  if n % 2 ^ 32 < 2 ^ 31 then ((n % 2 ^ 32 : Nat) : Int)
  else ((n % 2 ^ 32 : Nat) : Int) - 2 ^ 32

/-- Reinterpret a natural number as a signed 64-bit integer
(two's complement), as the C++ compiler does for
`int64_t minTime = 0xFFFFFFFFFFFFFFFF;`. -/
def toInt64 (n : Nat) : Int :=
  if n % 2 ^ 64 < 2 ^ 63 then ((n % 2 ^ 64 : Nat) : Int)
  else ((n % 2 ^ 64 : Nat) : Int) - 2 ^ 64

/-- `NT_SUCCESS(status)`: a 32-bit `NTSTATUS` is a success iff it is
non-negative as a signed value. -/
def ntSuccess (s : Int) : Bool := decide (0 ≤ s)

def STATUS_SUCCESS : Int := 0

def STATUS_INFO_LENGTH_MISMATCH : Int := toInt32 0xC0000004

def STATUS_ACCESS_DENIED : Int := toInt32 0xC0000022

def STATUS_NOT_FOUND : Int := toInt32 0xC0000225

theorem ntSuccess_STATUS_SUCCESS : ntSuccess STATUS_SUCCESS = true := by decide

theorem not_ntSuccess_STATUS_ACCESS_DENIED :
    ntSuccess STATUS_ACCESS_DENIED = false := by decide

/-! ## Enumeration data model

`EnumByNameOrPID` walks kernel-provided
`_SYSTEM_PROCESS_INFORMATION_T` records.  A record carries the process
id, a possibly-NULL image-name buffer, the thread count together with an
inline array of `SYSTEM_THREAD_INFORMATION` sub-records, and the byte
offset of the next record (0 terminates the walk).  Wide strings are
lists of character codes. -/

/-- One inline per-thread kernel sub-record: the fields
`ThreadInfo.CreateTime.QuadPart` (a signed 64-bit timestamp),
`ThreadInfo.StartAddress` and `ThreadInfo.ClientId.UniqueThread` that
the source reads. -/
structure SysThread where
  createTime : Int
  startAddress : Nat
  uniqueThread : Nat
  deriving Repr, DecidableEq

/-- One kernel process record, at the abstraction the per-record loop
body consumes: `UniqueProcessId`, `ImageName.Buffer` (`none` models a
NULL buffer) and the `Threads` array (`NumberOfThreads` is its length).
`nextEntryOffset` is kept for the navigation model. -/
structure SysProc where
  uniqueProcessId : Nat
  imageName : Option (List Nat)
  threads : List SysThread
  nextEntryOffset : Nat
  deriving Repr, DecidableEq

/-- `blackbone::ThreadInfo` as filled by the enumeration loop: thread
id, start address and the derived `mainThread` flag (the field is
value-initialized to `false` by the `ThreadInfo` structure before the
loop assigns it). -/
structure ThreadInfo where
  tid : Nat
  startAddress : Nat
  mainThread : Bool
  deriving Repr, DecidableEq

/-- `blackbone::ProcessInfo` as filled by the enumeration loop. -/
structure ProcessInfo where
  pid : Nat
  imageName : List Nat
  threads : List ThreadInfo
  deriving Repr, DecidableEq

/-- `towlower` on the ASCII range, the case folding `_wcsicmp`
applies to each wide character. -/
def towlower (c : Nat) : Nat := if 65 ≤ c ∧ c ≤ 90 then c + 32 else c

/-- `_wcsicmp(a, b) == 0` for two non-NULL wide strings:
case-insensitive equality. -/
def wcsicmpEq (a b : List Nat) : Bool :=
  decide (a.map towlower = b.map towlower)

/-- The call `_wcsicmp( name.c_str(), buf )`, where `buf` may be NULL.
A NULL argument fails the CRT's parameter check, which invokes the
invalid-parameter handler; this code base installs no handler, so the
default handler terminates the process (`_invoke_watson` /
`__fastfail`), and the legacy msvcrt build instead dereferences the
null pointer and dies with an access violation.  Either way the call
never returns: `none` models that abort.  `some b` is the `== 0`
comparison result for a present buffer. -/
def wcsicmpNull (name : List Nat) (buf : Option (List Nat)) : Option Bool :=
  match buf with
  | none => none
  | some s => some (wcsicmpEq name s)

/-- The per-record selection predicate of `EnumByNameOrPID`
(Process.cpp:287-290):
`pInfo->UniqueProcessId != 0 && (name.empty() && pid == 0 ||`
`_wcsicmp( name.c_str(), (wchar_t*)pInfo->ImageName.Buffer ) == 0 ||`
`pid == pInfo->UniqueProcessId)`, with C++ precedence (`&&` over `||`)
and short-circuit evaluation made explicit: a record with
`UniqueProcessId == 0` falsifies the outer `&&` and a true first
disjunct satisfies the `||` before `_wcsicmp` is reached; otherwise
`_wcsicmp` runs — aborting the process (`none`) when
`ImageName.Buffer` is NULL — and only when its `== 0` test is false is
`pid == UniqueProcessId` evaluated. -/
def includeRecord (pid : Nat) (name : List Nat) (r : SysProc) : Option Bool :=
  if r.uniqueProcessId == 0 then some false
  else if name.isEmpty && pid == 0 then some true
  else
    match wcsicmpNull name r.imageName with
    | none => none
    | some true => some true
    | some false => some (pid == r.uniqueProcessId)

/-- `int64_t minTime = 0xFFFFFFFFFFFFFFFF;` (Process.cpp:302): the
unsigned literal reinterpreted as a signed 64-bit value. -/
def minTimeInit : Int := toInt64 0xFFFFFFFFFFFFFFFF

theorem minTimeInit_eq : minTimeInit = -1 := by decide

/-- `info.threads[mainIdx].mainThread = true;` — set the `mainThread`
flag of the element at position `idx` (earlier set flags are never
cleared). -/
def markMain (ts : List ThreadInfo) (idx : Nat) : List ThreadInfo :=
  ts.enum.map fun p => if p.1 = idx then { p.2 with mainThread := true } else p.2

/-- The body of the per-thread loop (Process.cpp:305-322), threading the
loop state `(minTime, mainIdx, i, accumulated threads)`.  Each
iteration builds a `ThreadInfo`, updates `(minTime, mainIdx)` when
`thd.ThreadInfo.CreateTime.QuadPart < minTime`, appends the record, and
then assigns `info.threads[mainIdx].mainThread = true`. -/
def threadLoopGo (minTime : Int) (mainIdx i : Nat) (acc : List ThreadInfo) :
    List SysThread → List ThreadInfo
  | [] => acc
  | thd :: rest =>
    let tinfo : ThreadInfo :=
      { tid := thd.uniqueThread, startAddress := thd.startAddress, mainThread := false }
    let st := if thd.createTime < minTime then (thd.createTime, i) else (minTime, mainIdx)
    threadLoopGo st.1 st.2 (i + 1) (markMain (acc ++ [tinfo]) st.2) rest

/-- The full `includeThreads` block (Process.cpp:300-323): run the
per-thread loop starting from `minTime = minTimeInit`, `mainIdx = 0`. -/
def buildThreads (thds : List SysThread) : List ThreadInfo :=
  threadLoopGo minTimeInit 0 0 [] thds

/-- Build one `ProcessInfo` from a selected record
(Process.cpp:292-323): pid is copied, a NULL `ImageName.Buffer` leaves
`imageName` empty, and threads are filled only when `includeThreads`. -/
def mkProcessInfo (includeThreads : Bool) (r : SysProc) : ProcessInfo :=
  { pid := r.uniqueProcessId
    imageName := r.imageName.getD []
    threads := if includeThreads then buildThreads r.threads else [] }

/-- The record-processing loop (Process.cpp:284-332) at the record
level: the chain-ordered sequence of records the walk visits is given
as a list, each record is tested with the selection predicate and, when
selected, converted and appended to `found`.  If the predicate aborts
on some record (NULL image name reached by `_wcsicmp`), the process
terminates there: no later record is processed and the walk yields
`none`.  (The offset navigation of the same loop is modelled
separately by `walkOffsets`.) -/
def parseRecords (pid : Nat) (name : List Nat) (includeThreads : Bool) :
    List SysProc → Option (List ProcessInfo)
  | [] => some []
  | r :: rest =>
    match includeRecord pid name r with
    | none => none
    | some b =>
      match parseRecords pid name includeThreads rest with
      | none => none
      | some l => some ((if b then [mkProcessInfo includeThreads r] else []) ++ l)

/-- Modelled from the spec: `ProcessInfo` is "Comparable/orderable by
pid for deterministic result ordering" (`operator <` lives in the
header, which is not part of the sources); `std::sort` at
Process.cpp:335 therefore sorts by pid ascending, modelled as insertion
sort. -/
def insertByPid (x : ProcessInfo) : List ProcessInfo → List ProcessInfo
  | [] => [x]
  | y :: ys => if x.pid ≤ y.pid then x :: y :: ys else y :: insertByPid x ys

/-- Modelled from the spec: sort the result sequence by pid ascending
(Process.cpp:335). -/
def sortByPid (l : List ProcessInfo) : List ProcessInfo :=
  l.foldr insertByPid []

/-! ## The query / buffer phase of `EnumByNameOrPID`

`NtQuerySystemInformation` is an OS call; its outcomes are inputs of
the embedded function.  Buffer management is recorded explicitly:
whether `VirtualAlloc` ran, with which size, and which buffer (the
0x100-byte stack array `tmpbuf` or the heap allocation) each
`VirtualFree` call was handed. -/

/-- Which storage `buffer` points to. -/
inductive BufKind where
  | stack
  | heap
  deriving Repr, DecidableEq

/-- Outcome of one `NtQuerySystemInformation` call: the returned
`NTSTATUS` and the value stored through `&returnLength`. -/
structure QueryResult where
  status : Int
  returnLength : Nat
  deriving Repr, DecidableEq

/-- The OS-side behaviour one run of `EnumByNameOrPID` observes: the
outcome of the first query (issued with the 0x100-byte stack buffer),
the outcome of the second query as a function of the buffer size passed
to it, and the chain-ordered record sequences each buffer holds after a
successful query.  `VirtualAlloc` is modelled as always returning
storage of the requested size — the source never checks its result. -/
structure OsEnv where
  q1 : QueryResult
  q2 : Nat → QueryResult
  stackRecords : List SysProc
  heapRecords : Nat → List SysProc

/-- Everything one run of `EnumByNameOrPID` did and returned: the
`NTSTATUS` handed back, whether `VirtualAlloc` ran and with what size,
the `VirtualFree` calls the function's exit paths issue (in order,
tagged with the storage freed), how many `NtQuerySystemInformation`
calls were made, whether the parse loop was reached, and the final
`found` vector.  `found = none` marks a run whose record walk aborts
inside `_wcsicmp` on a NULL image-name buffer: the CRT terminates the
process inside the parse loop, so such a run never continues to the
function's exit path. -/
structure EnumRun where
  status : Int
  allocated : Bool
  allocSize : Nat
  frees : List BufKind
  queryCount : Nat
  parsed : Bool
  found : Option (List ProcessInfo)
  deriving Repr

/-- `Process::EnumByNameOrPID` (Process.cpp:255-339): first query with
`bufSize = 0x100` into the stack buffer; on any failure (`!NT_SUCCESS`)
set `bufSize = returnLength`, `VirtualAlloc` that size, query again,
and on a second failure `VirtualFree` the buffer and return the status;
otherwise parse whichever buffer is current, sort by pid, `VirtualFree`
the current buffer and return the (successful) status. -/
def EnumByNameOrPID (env : OsEnv) (pid : Nat) (name : List Nat)
    (includeThreads : Bool) : EnumRun :=
  if ntSuccess env.q1.status then
    { status := env.q1.status
      allocated := false
      allocSize := 0
      frees := [BufKind.stack]
      queryCount := 1
      parsed := true
      found := (parseRecords pid name includeThreads env.stackRecords).map sortByPid }
  else
    let bufSize := env.q1.returnLength
    let q2 := env.q2 bufSize
    if ntSuccess q2.status then
      { status := q2.status
        allocated := true
        allocSize := bufSize
        frees := [BufKind.heap]
        queryCount := 2
        parsed := true
        found := (parseRecords pid name includeThreads (env.heapRecords bufSize)).map sortByPid }
    else
      { status := q2.status
        allocated := true
        allocSize := bufSize
        frees := [BufKind.heap]
        queryCount := 2
        parsed := false
        found := some [] }

/-! ## Offset navigation of the record walk

The loop at Process.cpp:284-332 navigates by
`pInfo = (uint8_t*)pInfo + pInfo->NextEntryOffset` when
`NextEntryOffset` is nonzero, and breaks when it is zero.  No offset is
ever compared against the buffer length.  `next off` gives the
`NextEntryOffset` field of the record located at byte offset `off`;
`walkOffsets` lists the byte offsets whose records the loop
dereferences, bounded by `fuel` iterations (the C loop itself is
unbounded). -/
def walkOffsets (next : Nat → Nat) : Nat → Nat → List Nat
  | 0, _ => []
  | fuel + 1, off =>
    off :: (if next off ≠ 0 then walkOffsets next fuel (off + next off) else [])

/-! ## Lifecycle orchestrator

`Attach` / `CreateAndAttach` / `Detach` / `Terminate`.  Calls into the
OS and into the external collaborator subsystems are recorded as
events; their outcomes are inputs. -/

/-- Events emitted by the lifecycle operations, in program order. -/
inductive Ev where
  | resetMemory
  | resetModules
  | resetRemote
  | resetMmap
  | resetThreads
  | resetHooks
  | closeCore
  | coreOpen (ok : Bool)
  | ldrInit
  | createRPC
  | createProcess (ok : Bool)
  | ensureInit
  | resumeThread
  | closeThreadHandle
  deriving Repr, DecidableEq

/-- Orchestrator state: the process handle owned by `_core` (`none` =
closed) and, for each owned dependent subsystem, whether it currently
holds initialized resources.  `ldrProbeInit` records whether
`_nativeLdr.Init()` has run; note `Detach` does not reset it. -/
structure ProcState where
  core : Option Nat
  memoryInit : Bool
  modulesInit : Bool
  remoteInit : Bool
  mmapInit : Bool
  threadsInit : Bool
  hooksInit : Bool
  ldrProbeInit : Bool
  deriving Repr, DecidableEq

/-- Result of one lifecycle call: returned `NTSTATUS`, emitted events
in order, resulting state. -/
structure LifeRun where
  status : Int
  events : List Ev
  state : ProcState
  deriving Repr

/-- `_memory.reset()` — modelled from the spec: each collaborator's
`reset()` releases its resources without requiring a valid handle. -/
def resetMemoryStep (s : ProcState) : ProcState × Ev :=
  ({ s with memoryInit := false }, Ev.resetMemory)

/-- `_modules.reset()`. -/
def resetModulesStep (s : ProcState) : ProcState × Ev :=
  ({ s with modulesInit := false }, Ev.resetModules)

/-- `_remote.reset()`. -/
def resetRemoteStep (s : ProcState) : ProcState × Ev :=
  ({ s with remoteInit := false }, Ev.resetRemote)

/-- `_mmap.reset()`. -/
def resetMmapStep (s : ProcState) : ProcState × Ev :=
  ({ s with mmapInit := false }, Ev.resetMmap)

/-- `_threads.reset()`. -/
def resetThreadsStep (s : ProcState) : ProcState × Ev :=
  ({ s with threadsInit := false }, Ev.resetThreads)

/-- `_hooks.reset()`. -/
def resetHooksStep (s : ProcState) : ProcState × Ev :=
  ({ s with hooksInit := false }, Ev.resetHooks)

/-- `_core.Close()` — modelled from the spec: `Close()` is idempotent
and sets the handle to the null sentinel. -/
def coreCloseStep (s : ProcState) : ProcState × Ev :=
  ({ s with core := none }, Ev.closeCore)

/-- `Process::Detach` (Process.cpp:128-140): reset `_memory`,
`_modules`, `_remote`, `_mmap`, `_threads`, `_hooks` in that order, then
`_core.Close()`, and return `STATUS_SUCCESS` unconditionally. -/
def Detach (s : ProcState) : LifeRun :=
  let (s1, e1) := resetMemoryStep s
  let (s2, e2) := resetModulesStep s1
  let (s3, e3) := resetRemoteStep s2
  let (s4, e4) := resetMmapStep s3
  let (s5, e5) := resetThreadsStep s4
  let (s6, e6) := resetHooksStep s5
  let (s7, e7) := coreCloseStep s6
  { status := STATUS_SUCCESS
    events := [e1, e2, e3, e4, e5, e6, e7]
    state := s7 }

/-- The orchestrator holds no handle and no owned dependent subsystem
keeps initialized resources (the Detached state; `ldrProbeInit` is not
among the subsystems `Detach` resets, and the spec's Detach list does
not include the loader probe). -/
def IsDetached (s : ProcState) : Prop :=
  s.core = none ∧ s.memoryInit = false ∧ s.modulesInit = false ∧
    s.remoteInit = false ∧ s.mmapInit = false ∧ s.threadsInit = false ∧
    s.hooksInit = false

instance (s : ProcState) : Decidable (IsDetached s) := by
  unfold IsDetached; infer_instance

/-- OS-side outcomes observed by one `Attach` call: the `NTSTATUS` of
`_core.Open`, the handle value it stores on success, and the (discarded)
results of `_nativeLdr.Init()` and
`_remote.CreateRPCEnvironment(false, false)`. -/
structure AttachEnv where
  openStatus : Int
  openHandle : Nat
  ldrInitStatus : Int
  rpcStatus : Int
  deriving Repr

/-- `_core.Open` — modelled from the spec: on success the core stores
the resolved handle; on failure the handle stays null (a non-null
handle implies successful resolution). -/
def coreOpenStep (env : AttachEnv) (s : ProcState) : ProcState × Ev :=
  if ntSuccess env.openStatus then
    ({ s with core := some env.openHandle }, Ev.coreOpen true)
  else
    (s, Ev.coreOpen false)

/-- `Process::Attach(pid, access)` (Process.cpp:36-48): `Detach()`
first, then `_core.Open(pid, access)`; only on `NT_SUCCESS` run
`_nativeLdr.Init()` and `_remote.CreateRPCEnvironment(false, false)`
(results discarded); return the `Open` status. -/
def Attach (env : AttachEnv) (s : ProcState) : LifeRun :=
  let d := Detach s
  let (s1, eOpen) := coreOpenStep env d.state
  if ntSuccess env.openStatus then
    { status := env.openStatus
      events := d.events ++ [eOpen, Ev.ldrInit, Ev.createRPC]
      state := { s1 with ldrProbeInit := true, remoteInit := true } }
  else
    { status := env.openStatus
      events := d.events ++ [eOpen]
      state := s1 }

/-- `Process::Attach(HANDLE)` (Process.cpp:55-67): identical shape to
`Attach(pid, access)` but `_core.Open(hProc)` takes ownership of a
caller-supplied handle. -/
def AttachByHandle (env : AttachEnv) (s : ProcState) : LifeRun :=
  let d := Detach s
  let (s1, eOpen) := coreOpenStep env d.state
  if ntSuccess env.openStatus then
    { status := env.openStatus
      events := d.events ++ [eOpen, Ev.ldrInit, Ev.createRPC]
      state := { s1 with ldrProbeInit := true, remoteInit := true } }
  else
    { status := env.openStatus
      events := d.events ++ [eOpen]
      state := s1 }

/-- OS-side outcomes observed by one `CreateAndAttach` call:
whether `CreateProcessW` succeeded, the `LastNtStatus()` value read
when it fails, and then the `Attach`-style outcomes for
`_core.Open(pi.hProcess)` and the (discarded) `_nativeLdr.Init()` /
`EnsureInit()` results. -/
structure CreateEnv where
  createOk : Bool
  createFailStatus : Int
  openStatus : Int
  openHandle : Nat
  ldrInitStatus : Int
  ensureInitStatus : Int
  deriving Repr

/-- `Process::CreateAndAttach` (Process.cpp:79-122): `Detach()` first;
launch with `CreateProcessW(..., CREATE_SUSPENDED, ...)` and return
`LastNtStatus()` on launch failure; otherwise `_core.Open(pi.hProcess)`
and, on `NT_SUCCESS`, run `_nativeLdr.Init()`, then either call
`EnsureInit()` (when `suspended && forceInit`), do nothing (when
`suspended && !forceInit`), or `ResumeThread(pi.hThread)` (when
`!suspended`); finally `CloseHandle(pi.hThread)` and return the `Open`
status. -/
def CreateAndAttach (env : CreateEnv) (suspended forceInit : Bool)
    (s : ProcState) : LifeRun :=
  let d := Detach s
  if !env.createOk then
    { status := env.createFailStatus
      events := d.events ++ [Ev.createProcess false]
      state := d.state }
  else
    let aEnv : AttachEnv :=
      { openStatus := env.openStatus, openHandle := env.openHandle
        ldrInitStatus := env.ldrInitStatus, rpcStatus := 0 }
    let (s1, eOpen) := coreOpenStep aEnv d.state
    if ntSuccess env.openStatus then
      let branch :=
        if suspended then (if forceInit then [Ev.ensureInit] else [])
        else [Ev.resumeThread]
      { status := env.openStatus
        events := d.events ++ [Ev.createProcess true, eOpen, Ev.ldrInit] ++
          branch ++ [Ev.closeThreadHandle]
        state := { s1 with ldrProbeInit := true } }
    else
      { status := env.openStatus
        events := d.events ++ [Ev.createProcess true, eOpen, Ev.closeThreadHandle]
        state := s1 }

/-- The `TerminateProcess` OS call as it affects the calling thread's
last status value: on success the stored value is untouched, on failure
the call records its own failure status there.  Returns the pair
(BOOL result, last status value after the call). -/
def terminateProcessCall (ok : Bool) (failStatus lastBefore : Int) : Bool × Int :=
  (ok, if ok then lastBefore else failStatus)

/-- `Process::Terminate` (Process.cpp:175-179):
`TerminateProcess(_core.handle(), code); return LastNtStatus();` — the
BOOL result of the OS call is never read; the returned status is
whatever the thread's last status value is after the call. -/
def Terminate (ok : Bool) (failStatus lastBefore : Int) : Int :=
  let call := terminateProcessCall ok failStatus lastBefore
  call.2

/-! ## Claims -/

/-- A process with two threads whose creation timestamps are 10 and 5:
the second thread was created first. -/
def c1Threads : List SysThread :=
  [{ createTime := 10, startAddress := 100, uniqueThread := 1 },
   { createTime := 5, startAddress := 200, uniqueThread := 2 }]

/-- Claim C1: the thread marked `isMainThread` is the one with the
minimum creation timestamp.  The code disagrees: `minTime` is
initialised with `0xFFFFFFFFFFFFFFFF`, which as an `int64_t` is `-1`,
so `CreateTime.QuadPart < minTime` never holds for any non-negative
kernel timestamp, `mainIdx` stays 0, and the first thread in the inline
array is marked regardless of timestamps.  Here the creation times are
`[10, 5]` — the minimum is thread 1 — yet the flags come out
`[true, false]`. -/
theorem C1_mainThread_not_min_createTime :
    minTimeInit = -1 ∧
    (buildThreads c1Threads).map ThreadInfo.mainThread = [true, false] ∧
    ((c1Threads.map SysThread.createTime).min? = some 5 ∧
      (c1Threads.map SysThread.createTime).get? 1 = some 5) := by
  decide

/-- First query fails with a status that is not the buffer-too-small
status, and the (nevertheless issued) retry succeeds. -/
def c2Env : OsEnv :=
  { q1 := { status := STATUS_ACCESS_DENIED, returnLength := 0x1000 }
    q2 := fun _ => { status := STATUS_SUCCESS, returnLength := 0x1000 }
    stackRecords := []
    heapRecords := fun _ => [] }

/-- Claim C2 counterexample: the claim says a non-buffer-too-small
failure of the first call terminates the operation with that error and
no retry; but when the first call fails with `STATUS_ACCESS_DENIED`
the code still allocates, retries, and (the retry succeeding) returns
success rather than the first error. -/
theorem C2_counterexample :
    c2Env.q1.status ≠ STATUS_INFO_LENGTH_MISMATCH ∧
    ntSuccess c2Env.q1.status = false ∧
    (EnumByNameOrPID c2Env 0 [] false).allocated = true ∧
    (EnumByNameOrPID c2Env 0 [] false).queryCount = 2 ∧
    (EnumByNameOrPID c2Env 0 [] false).status ≠ c2Env.q1.status := by
  decide

/-- Claim C2 (amended): the query is first issued with the small stack
buffer; on ANY failure of that first call — not only buffer-too-small —
a buffer of exactly the reported required size is allocated and the
query retried exactly once; failure of the retried call terminates the
operation with that error and nothing is parsed; success of the first
call means a single query with no allocation. -/
theorem C2_retry_on_any_first_failure (env : OsEnv) (pid : Nat) (name : List Nat)
    (it : Bool) :
    (EnumByNameOrPID env pid name it).allocated = !ntSuccess env.q1.status ∧
    (EnumByNameOrPID env pid name it).queryCount =
      (if ntSuccess env.q1.status then 1 else 2) ∧
    (EnumByNameOrPID env pid name it).allocSize =
      (if ntSuccess env.q1.status then 0 else env.q1.returnLength) ∧
    (EnumByNameOrPID env pid name it).status =
      (if ntSuccess env.q1.status then env.q1.status
       else (env.q2 env.q1.returnLength).status) ∧
    (EnumByNameOrPID env pid name it).parsed =
      (ntSuccess env.q1.status || ntSuccess (env.q2 env.q1.returnLength).status) := by
  unfold EnumByNameOrPID
  cases h1 : ntSuccess env.q1.status <;>
    cases h2 : ntSuccess (env.q2 env.q1.returnLength).status <;>
      simp [h1, h2]

/-- First query succeeds, so no heap buffer is ever allocated. -/
def c3Env : OsEnv :=
  { q1 := { status := STATUS_SUCCESS, returnLength := 0x40 }
    q2 := fun _ => { status := STATUS_SUCCESS, returnLength := 0 }
    stackRecords := []
    heapRecords := fun _ => [] }

/-- Claim C3 counterexample: the claim says no path frees a buffer that
was not heap-allocated; but on the path where the first query succeeds,
`buffer` still points at the on-stack `tmpbuf` and the final
`VirtualFree( buffer, 0, MEM_RELEASE )` is nevertheless executed on
it. -/
theorem C3_counterexample :
    (EnumByNameOrPID c3Env 0 [] false).allocated = false ∧
    (EnumByNameOrPID c3Env 0 [] false).frees = [BufKind.stack] := by
  decide

/-- Claim C3 (amended): every run issues exactly one `VirtualFree`
call; whenever the transient buffer was heap-allocated that single call
frees the heap buffer (so: freed exactly once, never twice, on success,
no-match and post-allocation-failure paths alike), and when the initial
stack-buffer query succeeds the single call is issued on the stack
buffer, which was never heap-allocated. -/
theorem C3_single_free_every_path (env : OsEnv) (pid : Nat) (name : List Nat)
    (it : Bool) :
    (EnumByNameOrPID env pid name it).frees =
      [if (EnumByNameOrPID env pid name it).allocated then BufKind.heap
       else BufKind.stack] := by
  unfold EnumByNameOrPID
  cases h1 : ntSuccess env.q1.status <;>
    cases h2 : ntSuccess (env.q2 env.q1.returnLength).status <;>
      simp [h1, h2]

/-- The selection predicate exactly as claim C4 words it: a record
whose image-name reference is absent is treated as having EMPTY TEXT
for the case-insensitive comparison. -/
def includeRecordClaim (pid : Nat) (name : List Nat) (r : SysProc) : Bool :=
  r.uniqueProcessId != 0 &&
    ((pid == 0 && name.isEmpty) ||
      wcsicmpEq name (r.imageName.getD []) ||
      pid == r.uniqueProcessId)

/-- `_wcsicmp` is reached for a record — and aborts there — exactly
when the record's PID is nonzero (the outer `&&` does not
short-circuit), the filters are not the both-empty wildcard (the first
`||` disjunct does not short-circuit) and the image-name reference is
absent (NULL reaches `_wcsicmp`). -/
def abortsOn (pid : Nat) (name : List Nat) (r : SysProc) : Bool :=
  r.uniqueProcessId != 0 && !(name.isEmpty && pid == 0) && r.imageName.isNone

/-- The selection outcome on records whose evaluation completes
(`abortsOn = false`): pid-0 exclusion, the both-empty wildcard,
case-insensitive equality of a PRESENT image name, pid equality.  Its
absent-name arm is immaterial under `abortsOn = false`: an absent name
then occurs only when short-circuiting already decided the record
before the comparison. -/
def selectsRecord (pid : Nat) (name : List Nat) (r : SysProc) : Bool :=
  r.uniqueProcessId != 0 &&
    ((name.isEmpty && pid == 0) ||
      (match r.imageName with
       | none => false
       | some s => wcsicmpEq name s) ||
      pid == r.uniqueProcessId)

/-- A record with PID 3 and an absent (NULL) image-name reference. -/
def c4Rec : SysProc :=
  { uniqueProcessId := 3, imageName := none, threads := [], nextEntryOffset := 0 }

/-- Claim C4 counterexample: with `filterPid = 5` and empty
`filterName`, a record with PID 3 and an absent image-name reference is
included under the claim's reading (absent is "empty text, not an
error", and empty equals the empty filter name).  The code instead
passes the NULL buffer straight into `_wcsicmp`, which — with no
invalid-parameter handler installed — terminates the process before
the PID disjunct is even evaluated: the walk aborts instead of
producing a result. -/
theorem C4_counterexample :
    includeRecordClaim 5 [] c4Rec = true ∧
    includeRecord 5 [] c4Rec = none ∧
    parseRecords 5 [] false [c4Rec] = none := by
  decide

/-- On an aborting record the predicate evaluation does not return. -/
theorem includeRecord_aborts (pid : Nat) (name : List Nat) (r : SysProc)
    (h : abortsOn pid name r = true) : includeRecord pid name r = none := by
  unfold abortsOn at h
  rcases hi : r.imageName with _ | s
  · simp only [Bool.and_eq_true, Bool.not_eq_true'] at h
    unfold includeRecord wcsicmpNull
    rw [hi]
    simp only [bne_iff_ne, ne_eq] at h
    rw [if_neg (by simpa using h.1.1), if_neg (by simp [h.1.2])]
  · rw [hi] at h
    simp at h

/-- On a non-aborting record the predicate evaluation completes and
agrees with `selectsRecord`. -/
theorem includeRecord_completes (pid : Nat) (name : List Nat) (r : SysProc)
    (h : abortsOn pid name r = false) :
    includeRecord pid name r = some (selectsRecord pid name r) := by
  unfold abortsOn at h
  unfold includeRecord selectsRecord wcsicmpNull
  by_cases h0 : r.uniqueProcessId = 0
  · simp [h0]
  · by_cases hw : (name.isEmpty && pid == 0) = true
    · simp [h0, hw]
    · rcases hi : r.imageName with _ | s
      · rw [hi] at h
        simp [h0, hw, Option.isNone] at h
      · simp only [beq_iff_eq, h0, if_false, hw, Bool.false_eq_true, if_false, hi]
        cases hc : wcsicmpEq name s <;> simp [h0, hw, hc]

/-- A walk over non-aborting records completes and returns exactly the
`selectsRecord`-filtered records, converted in order. -/
theorem parseRecords_completes (pid : Nat) (name : List Nat) (it : Bool)
    (recs : List SysProc) (h : ∀ r ∈ recs, abortsOn pid name r = false) :
    parseRecords pid name it recs =
      some ((recs.filter (fun r => selectsRecord pid name r)).map
        (mkProcessInfo it)) := by
  induction recs with
  | nil => rfl
  | cons r rest ih =>
    have hr := includeRecord_completes pid name r (h r (List.mem_cons_self r rest))
    have hrest := ih fun x hx => h x (List.mem_cons_of_mem r hx)
    unfold parseRecords
    rw [hr, hrest]
    cases hs : selectsRecord pid name r <;> simp [List.filter, hs]

/-- A walk that meets an aborting record anywhere never completes. -/
theorem parseRecords_aborts (pid : Nat) (name : List Nat) (it : Bool)
    (recs : List SysProc) (h : ∃ r ∈ recs, abortsOn pid name r = true) :
    parseRecords pid name it recs = none := by
  induction recs with
  | nil => simp at h
  | cons r rest ih =>
    unfold parseRecords
    by_cases hr : abortsOn pid name r = true
    · rw [includeRecord_aborts pid name r hr]
    · rw [includeRecord_completes pid name r (by simpa using hr)]
      have : ∃ x ∈ rest, abortsOn pid name x = true := by
        rcases h with ⟨x, hx, hab⟩
        rcases List.mem_cons.mp hx with hx | hx
        · exact absurd (hx ▸ hab) hr
        · exact ⟨x, hx, hab⟩
      rw [ih this]

/-- Claim C4 (amended): a record with PID 0 is always excluded, and
the comparison with its possibly-NULL image name is never reached;
when both filters are empty every record with nonzero PID is included,
again without reaching the comparison; otherwise the name comparison
runs: a record whose image-name reference is ABSENT then aborts the
process (invalid-parameter termination — the PID disjunct is never
evaluated and the walk does not complete), while a record with a
present image name is included iff the name case-insensitively equals
`filterName` or its PID equals `filterPid`.  A walk whose visited
records never reach the comparison with an absent name returns exactly
the records selected by that predicate, in order; a walk that meets
one such record anywhere returns nothing. -/
theorem C4_selection_predicate (pid : Nat) (name : List Nat) (it : Bool)
    (recs : List SysProc) :
    (∀ r : SysProc, abortsOn pid name r = true →
      includeRecord pid name r = none) ∧
    (∀ r : SysProc, abortsOn pid name r = false →
      includeRecord pid name r = some (selectsRecord pid name r)) ∧
    ((∀ r ∈ recs, abortsOn pid name r = false) →
      parseRecords pid name it recs =
        some ((recs.filter (fun r => selectsRecord pid name r)).map
          (mkProcessInfo it))) ∧
    ((∃ r ∈ recs, abortsOn pid name r = true) →
      parseRecords pid name it recs = none) :=
  ⟨fun r => includeRecord_aborts pid name r,
   fun r => includeRecord_completes pid name r,
   parseRecords_completes pid name it recs,
   parseRecords_aborts pid name it recs⟩

/-- A record with PID 7 and a present image name. -/
def c4RecNamed : SysProc :=
  { uniqueProcessId := 7, imageName := some [110, 111], threads := [],
    nextEntryOffset := 0 }

/-- Claim C4 amended-theorem witness: the NULL-name record aborts under
a PID filter, and a one-record walk over a named record completes with
the filtered conversion. -/
theorem C4_selection_predicate_witness :
    includeRecord 5 [] c4Rec = none ∧
    parseRecords 7 [110, 111] false [c4RecNamed] =
      some (([c4RecNamed].filter
        (fun r => selectsRecord 7 [110, 111] r)).map (mkProcessInfo false)) :=
  ⟨(C4_selection_predicate 5 [] false [c4Rec]).1 c4Rec (by decide),
   (C4_selection_predicate 7 [110, 111] false [c4RecNamed]).2.2.1 (by decide)⟩

/-- A crafted next-offset chain: the record at byte offset 0 points
0x1000 bytes ahead; the record there terminates the walk. -/
def c5Next (off : Nat) : Nat := if off = 0 then 0x1000 else 0

/-- Claim C5 counterexample: the claim says every next-record offset is
validated against the allocated buffer length before dereferencing.
The loop performs no such check: with an allocated length of 0x100 (the
size the source uses for its initial buffer) and a first record whose
`NextEntryOffset` is 0x1000, the walk dereferences the record at byte
offset 0x1000 — far past the end of the buffer. -/
theorem C5_counterexample :
    walkOffsets c5Next 2 0 = [0, 0x1000] ∧
    (walkOffsets c5Next 2 0).any (fun o => decide (0x100 ≤ o)) = true := by
  decide

/-- Head of a walk with nonzero fuel is its start offset. -/
theorem walkOffsets_head (next : Nat → Nat) (fuel off : Nat) :
    (walkOffsets next (fuel + 1) off).head? = some off := by
  unfold walkOffsets
  rfl

/-- Visited offsets strictly increase along the walk. -/
theorem walkOffsets_chain_lt (next : Nat → Nat) :
    ∀ fuel off, List.Chain' (· < ·) (walkOffsets next fuel off) := by
  intro fuel
  induction fuel with
  | zero => intro off; simp [walkOffsets]
  | succ f ih =>
    intro off
    unfold walkOffsets
    by_cases h : next off ≠ 0
    · rw [if_pos h]
      refine List.chain'_cons'.mpr ⟨?_, ih (off + next off)⟩
      intro y hy
      cases f with
      | zero => simp [walkOffsets] at hy
      | succ f' =>
        rw [walkOffsets_head] at hy
        cases hy
        omega
    · simp [h]

/-- Claim C5 (amended): the walk terminates when a record's next-entry
offset is zero, and otherwise follows the raw nonzero offset with no
validation against the buffer length (so it can leave the buffer, as
the counterexample shows); the byte offsets it visits strictly
increase. -/
theorem C5_walk_unvalidated (next : Nat → Nat) (fuel off : Nat) :
    (next off = 0 → walkOffsets next (fuel + 1) off = [off]) ∧
    (next off ≠ 0 → off + next off ∈ walkOffsets next (fuel + 2) off) ∧
    List.Chain' (· < ·) (walkOffsets next fuel off) := by
  refine ⟨?_, ?_, walkOffsets_chain_lt next fuel off⟩
  · intro h
    unfold walkOffsets
    simp [h]
  · intro h
    unfold walkOffsets
    rw [if_pos h]
    refine List.mem_cons_of_mem _ ?_
    unfold walkOffsets
    exact List.mem_cons_self _ _

/-- Claim C5 amended-theorem witness at the crafted chain. -/
theorem C5_walk_unvalidated_witness :
    walkOffsets c5Next 1 0x1000 = [0x1000] ∧
    (0 + c5Next 0) ∈ walkOffsets c5Next 2 0 := by
  have h1 := C5_walk_unvalidated c5Next 0 0x1000
  have h2 := C5_walk_unvalidated c5Next 0 0
  exact ⟨h1.1 (by decide), h2.2.1 (by decide)⟩

/-- A freshly constructed orchestrator: no handle, nothing
initialized. -/
def initialState : ProcState :=
  { core := none, memoryInit := false, modulesInit := false, remoteInit := false,
    mmapInit := false, threadsInit := false, hooksInit := false,
    ldrProbeInit := false }

/-- Claim C6: in `CreateAndAttach`, after successful launch and handle
acquisition: with `suspended` and `forceInit` both set, `EnsureInit` is
invoked and `ResumeThread` is never called; with `suspended` unset, the
primary thread is resumed; in all these cases `CloseHandle(pi.hThread)`
runs as the last action before returning and the state retains only the
process handle. -/
theorem C6_createAndAttach_suspend_modes (env : CreateEnv)
    (suspended forceInit : Bool) (s : ProcState)
    (hc : env.createOk = true) (ho : ntSuccess env.openStatus = true) :
    (suspended = true → forceInit = true →
      Ev.ensureInit ∈ (CreateAndAttach env suspended forceInit s).events ∧
      Ev.resumeThread ∉ (CreateAndAttach env suspended forceInit s).events) ∧
    (suspended = false →
      Ev.resumeThread ∈ (CreateAndAttach env suspended forceInit s).events) ∧
    (CreateAndAttach env suspended forceInit s).events.getLast? =
      some Ev.closeThreadHandle ∧
    (CreateAndAttach env suspended forceInit s).state.core = some env.openHandle := by
  unfold CreateAndAttach Detach resetMemoryStep resetModulesStep resetRemoteStep
    resetMmapStep resetThreadsStep resetHooksStep coreCloseStep coreOpenStep
  cases suspended <;> cases forceInit <;> simp [hc, ho]

/-- Claim C6 witness: suspended forced-init launch with handle 42. -/
theorem C6_witness :
    Ev.ensureInit ∈
      (CreateAndAttach
        { createOk := true, createFailStatus := 0, openStatus := 0,
          openHandle := 42, ldrInitStatus := 0, ensureInitStatus := 0 }
        true true initialState).events ∧
    Ev.resumeThread ∉
      (CreateAndAttach
        { createOk := true, createFailStatus := 0, openStatus := 0,
          openHandle := 42, ldrInitStatus := 0, ensureInitStatus := 0 }
        true true initialState).events :=
  (C6_createAndAttach_suspend_modes
    { createOk := true, createFailStatus := 0, openStatus := 0,
      openHandle := 42, ldrInitStatus := 0, ensureInitStatus := 0 }
    true true initialState rfl (by decide)).1 rfl rfl

/-- Claim C7: every handle-acquisition failure short-circuits: the
failing status is returned, the orchestrator is left Detached, and
neither `_nativeLdr.Init` nor `CreateRPCEnvironment` runs — for
`Attach(pid)`, `Attach(HANDLE)`, `CreateAndAttach` with a failed
launch (no handle is ever opened) and `CreateAndAttach` with a failed
`_core.Open`. -/
theorem C7_failure_leaves_detached (envA : AttachEnv) (envC : CreateEnv)
    (suspended forceInit : Bool) (s : ProcState) :
    (ntSuccess envA.openStatus = false →
      (Attach envA s).status = envA.openStatus ∧
      IsDetached (Attach envA s).state ∧
      Ev.ldrInit ∉ (Attach envA s).events ∧
      Ev.createRPC ∉ (Attach envA s).events) ∧
    (ntSuccess envA.openStatus = false →
      (AttachByHandle envA s).status = envA.openStatus ∧
      IsDetached (AttachByHandle envA s).state ∧
      Ev.ldrInit ∉ (AttachByHandle envA s).events ∧
      Ev.createRPC ∉ (AttachByHandle envA s).events) ∧
    (envC.createOk = false →
      (CreateAndAttach envC suspended forceInit s).status = envC.createFailStatus ∧
      IsDetached (CreateAndAttach envC suspended forceInit s).state ∧
      Ev.coreOpen true ∉ (CreateAndAttach envC suspended forceInit s).events ∧
      Ev.ldrInit ∉ (CreateAndAttach envC suspended forceInit s).events) ∧
    (envC.createOk = true → ntSuccess envC.openStatus = false →
      (CreateAndAttach envC suspended forceInit s).status = envC.openStatus ∧
      IsDetached (CreateAndAttach envC suspended forceInit s).state ∧
      Ev.ldrInit ∉ (CreateAndAttach envC suspended forceInit s).events) := by
  refine ⟨fun h => ?_, fun h => ?_, fun h => ?_, fun h1 h2 => ?_⟩
  · unfold Attach Detach resetMemoryStep resetModulesStep resetRemoteStep
      resetMmapStep resetThreadsStep resetHooksStep coreCloseStep coreOpenStep
    simp [h, IsDetached]
  · unfold AttachByHandle Detach resetMemoryStep resetModulesStep resetRemoteStep
      resetMmapStep resetThreadsStep resetHooksStep coreCloseStep coreOpenStep
    simp [h, IsDetached]
  · unfold CreateAndAttach Detach resetMemoryStep resetModulesStep resetRemoteStep
      resetMmapStep resetThreadsStep resetHooksStep coreCloseStep coreOpenStep
    simp [h, IsDetached]
  · unfold CreateAndAttach Detach resetMemoryStep resetModulesStep resetRemoteStep
      resetMmapStep resetThreadsStep resetHooksStep coreCloseStep coreOpenStep
    simp [h1, h2, IsDetached]

/-- Claim C7 witness: a denied open and a failed launch, from the fresh
state. -/
theorem C7_witness :
    IsDetached (Attach
      { openStatus := STATUS_ACCESS_DENIED, openHandle := 7,
        ldrInitStatus := 0, rpcStatus := 0 } initialState).state ∧
    IsDetached (CreateAndAttach
      { createOk := false, createFailStatus := STATUS_ACCESS_DENIED,
        openStatus := 0, openHandle := 7, ldrInitStatus := 0,
        ensureInitStatus := 0 } false true initialState).state :=
  ⟨((C7_failure_leaves_detached
      { openStatus := STATUS_ACCESS_DENIED, openHandle := 7,
        ldrInitStatus := 0, rpcStatus := 0 }
      { createOk := false, createFailStatus := STATUS_ACCESS_DENIED,
        openStatus := 0, openHandle := 7, ldrInitStatus := 0,
        ensureInitStatus := 0 } false true initialState).1 (by decide)).2.1,
   ((C7_failure_leaves_detached
      { openStatus := STATUS_ACCESS_DENIED, openHandle := 7,
        ldrInitStatus := 0, rpcStatus := 0 }
      { createOk := false, createFailStatus := STATUS_ACCESS_DENIED,
        openStatus := 0, openHandle := 7, ldrInitStatus := 0,
        ensureInitStatus := 0 } false true initialState).2.2.1 rfl).2.1⟩

/-- Claim C8: `Detach` resets the owned subsystems in the fixed order
memory, modules, remote, manual mapper, threads, hooks, closes the
handle last, always returns `STATUS_SUCCESS`, leaves every state
Detached, and is idempotent. -/
theorem C8_detach_order_idempotent (s : ProcState) :
    (Detach s).status = STATUS_SUCCESS ∧
    (Detach s).events =
      [Ev.resetMemory, Ev.resetModules, Ev.resetRemote, Ev.resetMmap,
       Ev.resetThreads, Ev.resetHooks, Ev.closeCore] ∧
    IsDetached (Detach s).state ∧
    Detach (Detach s).state = Detach s := by
  unfold Detach resetMemoryStep resetModulesStep resetRemoteStep
    resetMmapStep resetThreadsStep resetHooksStep coreCloseStep
  simp [IsDetached]

/-- Claim C9: the status a caller gets back from `Attach`,
`Attach(HANDLE)` or a launched `CreateAndAttach` is exactly the
handle-acquisition status; the discarded results of the post-attach
steps (`_nativeLdr.Init`, `CreateRPCEnvironment`, `EnsureInit`) can
never change it, and a successful acquisition stays attached (handle
retained) whatever those results were. -/
theorem C9_post_attach_results_discarded (envA envA' : AttachEnv)
    (envC envC' : CreateEnv) (suspended forceInit : Bool) (s : ProcState) :
    (Attach envA s).status = envA.openStatus ∧
    (AttachByHandle envA s).status = envA.openStatus ∧
    (envC.createOk = true →
      (CreateAndAttach envC suspended forceInit s).status = envC.openStatus) ∧
    (ntSuccess envA.openStatus = true →
      (Attach envA s).state.core = some envA.openHandle) ∧
    (envA.openStatus = envA'.openStatus → envA.openHandle = envA'.openHandle →
      Attach envA s = Attach envA' s) ∧
    (envC.createOk = envC'.createOk →
      envC.createFailStatus = envC'.createFailStatus →
      envC.openStatus = envC'.openStatus → envC.openHandle = envC'.openHandle →
      CreateAndAttach envC suspended forceInit s =
        CreateAndAttach envC' suspended forceInit s) := by
  refine ⟨?_, ?_, fun h => ?_, fun h => ?_, fun h1 h2 => ?_, fun h1 h2 h3 h4 => ?_⟩
  · unfold Attach
    cases h : ntSuccess envA.openStatus <;> simp [h]
  · unfold AttachByHandle
    cases h : ntSuccess envA.openStatus <;> simp [h]
  · unfold CreateAndAttach
    simp only [h]
    cases h2 : ntSuccess envC.openStatus <;> simp [h2]
  · unfold Attach coreOpenStep
    simp [h]
  · unfold Attach coreOpenStep
    rw [h1, h2]
  · unfold CreateAndAttach coreOpenStep
    rw [h1, h2, h3, h4]

/-- Claim C9 witness: an attach whose `CreateRPCEnvironment` result is
a hard failure still reports the open status and keeps the handle. -/
theorem C9_witness :
    (Attach
      { openStatus := 0, openHandle := 42, ldrInitStatus := 0,
        rpcStatus := STATUS_ACCESS_DENIED } initialState).status = 0 ∧
    (Attach
      { openStatus := 0, openHandle := 42, ldrInitStatus := 0,
        rpcStatus := STATUS_ACCESS_DENIED } initialState).state.core = some 42 :=
  ⟨(C9_post_attach_results_discarded
      { openStatus := 0, openHandle := 42, ldrInitStatus := 0,
        rpcStatus := STATUS_ACCESS_DENIED }
      { openStatus := 0, openHandle := 42, ldrInitStatus := 0,
        rpcStatus := STATUS_ACCESS_DENIED }
      { createOk := true, createFailStatus := 0, openStatus := 0,
        openHandle := 42, ldrInitStatus := 0, ensureInitStatus := 0 }
      { createOk := true, createFailStatus := 0, openStatus := 0,
        openHandle := 42, ldrInitStatus := 0, ensureInitStatus := 0 }
      false true initialState).1,
   (C9_post_attach_results_discarded
      { openStatus := 0, openHandle := 42, ldrInitStatus := 0,
        rpcStatus := STATUS_ACCESS_DENIED }
      { openStatus := 0, openHandle := 42, ldrInitStatus := 0,
        rpcStatus := STATUS_ACCESS_DENIED }
      { createOk := true, createFailStatus := 0, openStatus := 0,
        openHandle := 42, ldrInitStatus := 0, ensureInitStatus := 0 }
      { createOk := true, createFailStatus := 0, openStatus := 0,
        openHandle := 42, ldrInitStatus := 0, ensureInitStatus := 0 }
      false true initialState).2.2.2.1 (by decide)⟩

/-- Claim C10: `Terminate` never reads the BOOL result of
`TerminateProcess`; it returns whatever the thread's last status value
is after the call — in particular, when the OS-level termination
succeeds, the returned status is the stale pre-call value, which can be
a non-success status left over from a previous call (concretely,
`STATUS_ACCESS_DENIED`). -/
theorem C10_terminate_returns_last_status (ok : Bool) (failStatus lastBefore : Int) :
    Terminate ok failStatus lastBefore =
      (terminateProcessCall ok failStatus lastBefore).2 ∧
    Terminate true failStatus lastBefore = lastBefore ∧
    ntSuccess (Terminate true failStatus STATUS_ACCESS_DENIED) = false := by
  refine ⟨rfl, rfl, ?_⟩
  show ntSuccess STATUS_ACCESS_DENIED = false
  decide

end Blackbone
